import Mathlib

/-!
Verification of the ground-time monitoring pipeline
(`src/monitor.py`, `src/config.py`).

The central operation is `process_and_log_data` (src/monitor.py, lines
136-191).  It receives the list of OpenSky state vectors, keeps those with
`state[8] is True` (on ground), builds one log entry per grounded vector,
flags the entries whose `minutes_on_ground` strictly exceeds the configured
threshold, appends all grounded entries to a CSV file and returns the
flagged ones.  The function keeps no cross-run state: there is no tracking
map, no `first_seen`, no `alert_sent` flag and no eviction step anywhere in
the repository; the only artifact that survives a run is the CSV log, which
is append-only and never read back by the monitor.

Timestamps are modelled as integer Unix seconds (`Int`); `datetime`
subtraction followed by Python `int(x / 60)` truncates toward zero, which is
`Int.div` on integer seconds.
-/

/-- One OpenSky state vector, restricted to the indices the code reads:
`state[1]` (callsign, may be `None`), `state[2]` (origin country, may be
`None`), `state[4]` (last_contact, Unix seconds), `state[8]` (on_ground;
the code tests `state[8] is True`, so anything other than `True` — `False`,
`None`, a missing value — is modelled as not-`some true`). -/
structure StateVector where
  callsign : Option String
  origin_country : Option String
  last_contact : Int
  on_ground : Option Bool
deriving Repr, DecidableEq

/-- `config.py`: `TURNAROUND_THRESHOLD_MINUTES = 60`. -/
def TURNAROUND_THRESHOLD_MINUTES : Int := 60

/-- Helper for `str.strip()`: drop leading whitespace characters. -/
def dropLeadingWS : List Char → List Char
  | [] => []
  | c :: cs => if c.isWhitespace then dropLeadingWS cs else c :: cs

/-- Python `str.strip()`: remove leading and trailing whitespace.  Written
by structural recursion on the character list so the kernel can evaluate
concrete instances. -/
def pyStrip (s : String) : String :=
  ⟨(dropLeadingWS (dropLeadingWS s.data).reverse).reverse⟩

/-- `callsign = state[1].strip() if state[1] else 'N/A'` (line 163).
Python truthiness: `None` and the empty string are falsy, so both give
`'N/A'`; any other string is stripped. -/
def callsignOf : Option String → String
  | none => "N/A"
  | some s => if s = "" then "N/A" else pyStrip s

/-- `state[2] if state[2] else 'N/A'` (line 176). -/
def originOf : Option String → String
  | none => "N/A"
  | some s => if s = "" then "N/A" else s

/-- Lines 166-169: `time_on_ground = datetime.now(timezone.utc) -
last_contact_time`; `minutes_on_ground = int(time_on_ground.total_seconds()
/ 60)`.  Python `int()` truncates toward zero, i.e. `Int.tdiv`. -/
def minutesOnGround (now last_contact : Int) : Int :=
  Int.tdiv (now - last_contact) 60

/-- One row of the CSV log (`flight_log_entry`, lines 171-180). -/
structure LogEntry where
  log_timestamp_utc : Int
  flight_iata : String
  airline : String
  origin_country : String
  last_contact_time_utc : Int
  minutes_on_ground : Int
deriving Repr, DecidableEq

/-- The `flight_log_entry` dict built for a grounded state vector
(lines 171-180). -/
def mkLogEntry (now : Int) (s : StateVector) : LogEntry :=
  { log_timestamp_utc := now
    flight_iata := callsignOf s.callsign
    airline := "Unknown"
    origin_country := originOf s.origin_country
    last_contact_time_utc := s.last_contact
    minutes_on_ground := minutesOnGround now s.last_contact }

/-- The `for state in state_vectors` loop (lines 154-184): grounded vectors
are appended to `all_grounded_flights_log`; those with `minutes_on_ground >
TURNAROUND_THRESHOLD_MINUTES` are additionally appended to
`flagged_for_alert`.  Returns the pair (log, flagged) in input order. -/
def processVectors (threshold now : Int) :
    List StateVector → List LogEntry × List LogEntry
  | [] => ([], [])
  | s :: rest =>
    let (log, flagged) := processVectors threshold now rest
    if s.on_ground = some true then
      let e := mkLogEntry now s
      (e :: log, if threshold < e.minutes_on_ground then e :: flagged else flagged)
    else
      (log, flagged)

/-- `process_and_log_data` (lines 136-191), with the guard clause of lines
143-145: an empty input returns immediately.  The first component is
`all_grounded_flights_log` (handed to `_save_logs_to_csv`), the second is
`flagged_for_alert` (the return value, handed to `send_slack_alert`). -/
def process_and_log_data (threshold now : Int) (state_vectors : List StateVector) :
    List LogEntry × List LogEntry :=
  if state_vectors.isEmpty then ([], [])
  else processVectors threshold now state_vectors

/-- `_save_logs_to_csv` (lines 193-224), modelled on the rows of the CSV
file: an empty batch writes nothing, otherwise the rows are appended. -/
def save_logs_to_csv (log_entries csvFile : List LogEntry) : List LogEntry :=
  if log_entries.isEmpty then csvFile else csvFile ++ log_entries

/-- One full monitor run over the persistent artifact (the CSV file):
`process_and_log_data` followed by the CSV append it performs, returning
the new file contents and the flagged entries.  This is the only state that
survives from one run to the next anywhere in the repository. -/
def monitorRun (threshold now : Int) (state_vectors : List StateVector)
    (csvFile : List LogEntry) : List LogEntry × List LogEntry :=
  if state_vectors.isEmpty then (csvFile, [])
  else
    let out := processVectors threshold now state_vectors
    (save_logs_to_csv out.1 csvFile, out.2)

/-- A sequence of monitor runs, each given as (now, snapshot), threading the
CSV file through; returns the final file and the per-run flagged lists. -/
def monitorSequence (threshold : Int) :
    List (Int × List StateVector) → List LogEntry → List LogEntry × List (List LogEntry)
  | [], csvFile => (csvFile, [])
  | (now, svs) :: rest, csvFile =>
    let one := monitorRun threshold now svs csvFile
    let restOut := monitorSequence threshold rest one.1
    (restOut.1, one.2 :: restOut.2)

/-- Predicate for the `state[8] is True` test. -/
def isGrounded (s : StateVector) : Bool :=
  s.on_ground = some true

-- Characterization lemmas for the processing loop.

theorem processVectors_fst (threshold now : Int) (svs : List StateVector) :
    (processVectors threshold now svs).1 =
      (svs.filter isGrounded).map (mkLogEntry now) := by
  induction svs with
  | nil => rfl
  | cons s rest ih =>
    simp only [processVectors, List.filter_cons]
    by_cases h : s.on_ground = some true
    · simp [isGrounded, h, ih]
    · simp [isGrounded, h, ih]

theorem processVectors_snd (threshold now : Int) (svs : List StateVector) :
    (processVectors threshold now svs).2 =
      (processVectors threshold now svs).1.filter
        (fun e => threshold < e.minutes_on_ground) := by
  induction svs with
  | nil => rfl
  | cons s rest ih =>
    simp only [processVectors]
    by_cases h : s.on_ground = some true
    · by_cases h2 : threshold < (mkLogEntry now s).minutes_on_ground
      · simp [h, h2, ih, List.filter_cons]
      · simp [h, h2, ih, List.filter_cons]
    · simp [h, ih]

theorem process_and_log_data_fst (threshold now : Int) (svs : List StateVector) :
    (process_and_log_data threshold now svs).1 =
      (svs.filter isGrounded).map (mkLogEntry now) := by
  cases svs with
  | nil => rfl
  | cons s rest => simpa [process_and_log_data] using processVectors_fst threshold now (s :: rest)

theorem process_and_log_data_snd (threshold now : Int) (svs : List StateVector) :
    (process_and_log_data threshold now svs).2 =
      (process_and_log_data threshold now svs).1.filter
        (fun e => threshold < e.minutes_on_ground) := by
  cases svs with
  | nil => rfl
  | cons s rest => simpa [process_and_log_data] using processVectors_snd threshold now (s :: rest)

theorem monitorRun_snd (threshold now : Int) (svs : List StateVector)
    (csvFile : List LogEntry) :
    (monitorRun threshold now svs csvFile).2 =
      (process_and_log_data threshold now svs).2 := by
  by_cases h : svs.isEmpty <;> simp [monitorRun, process_and_log_data, h]

-- Claim theorems.

/-- C6: calling the processing operation with an empty snapshot returns two
empty sequences, and a monitor run on an empty snapshot leaves the CSV log
(the only state the program persists across runs) exactly as it was. -/
theorem empty_snapshot_noop (threshold now : Int) (csvFile : List LogEntry) :
    process_and_log_data threshold now [] = ([], []) ∧
      monitorRun threshold now [] csvFile = (csvFile, []) :=
  ⟨rfl, rfl⟩

/-- C7: a record is placed in the alert output exactly when it is in the
loggable output and its `minutes_on_ground` strictly exceeds the threshold;
in particular a record whose dwell equals the threshold is never flagged. -/
theorem alert_threshold_strict (threshold now : Int) (svs : List StateVector)
    (e : LogEntry) :
    e ∈ (process_and_log_data threshold now svs).2 ↔
      e ∈ (process_and_log_data threshold now svs).1 ∧
        threshold < e.minutes_on_ground := by
  rw [process_and_log_data_snd, List.mem_filter]
  simp

/-- C8: the loggable output is the grounded observations of the snapshot in
input order (skipped entries removed), and the alert output is a sub-sequence
of the loggable output in that same order. -/
theorem output_ordering (threshold now : Int) (svs : List StateVector) :
    (process_and_log_data threshold now svs).1 =
        (svs.filter isGrounded).map (mkLogEntry now) ∧
      (process_and_log_data threshold now svs).2.Sublist
        (process_and_log_data threshold now svs).1 := by
  refine ⟨process_and_log_data_fst threshold now svs, ?_⟩
  rw [process_and_log_data_snd]
  exact List.filter_sublist _

/-- C9: an observation whose `on_ground` field is anything other than `True`
(false, absent, malformed) is skipped entirely: removing it from the
snapshot leaves both outputs unchanged. -/
theorem ground_flag_gating (threshold now : Int) (pre post : List StateVector)
    (s : StateVector) (h : s.on_ground ≠ some true) :
    process_and_log_data threshold now (pre ++ s :: post) =
      process_and_log_data threshold now (pre ++ post) := by
  have hg : isGrounded s = false := by
    simp [isGrounded, h]
  have h1 : (process_and_log_data threshold now (pre ++ s :: post)).1 =
      (process_and_log_data threshold now (pre ++ post)).1 := by
    rw [process_and_log_data_fst, process_and_log_data_fst,
      List.filter_append, List.filter_append, List.filter_cons, hg]
    simp
  have h2 : (process_and_log_data threshold now (pre ++ s :: post)).2 =
      (process_and_log_data threshold now (pre ++ post)).2 := by
    rw [process_and_log_data_snd, process_and_log_data_snd, h1]
  exact Prod.ext h1 h2

/-- C9 witness: a concrete grounded-false vector is skipped. -/
theorem ground_flag_gating_witness :
    process_and_log_data 60 100
        ([] ++ ⟨some "AF33", some "France", 40, some false⟩ ::
          [⟨some "AC11", some "Canada", 40, some true⟩]) =
      process_and_log_data 60 100 ([] ++ [⟨some "AC11", some "Canada", 40, some true⟩]) :=
  ground_flag_gating 60 100 [] [⟨some "AC11", some "Canada", 40, some true⟩]
    ⟨some "AF33", some "France", 40, some false⟩ (by decide)

/-- C10: raising the threshold never adds a record to the alert output
(the alert output under the larger threshold is a sub-sequence of the one
under the smaller), and the loggable output does not depend on the
threshold at all. -/
theorem threshold_monotonic (t1 t2 now : Int) (svs : List StateVector)
    (h : t1 ≤ t2) :
    (process_and_log_data t2 now svs).1 = (process_and_log_data t1 now svs).1 ∧
      (process_and_log_data t2 now svs).2.Sublist
        (process_and_log_data t1 now svs).2 := by
  have h1 : (process_and_log_data t2 now svs).1 = (process_and_log_data t1 now svs).1 := by
    rw [process_and_log_data_fst, process_and_log_data_fst]
  refine ⟨h1, ?_⟩
  rw [process_and_log_data_snd, process_and_log_data_snd, h1]
  refine List.monotone_filter_right _ ?_
  intro e he
  simp only [decide_eq_true_eq] at he ⊢
  exact lt_of_le_of_lt h he

/-- C10 witness: thresholds 30 and 90 on a concrete snapshot. -/
theorem threshold_monotonic_witness :
    (process_and_log_data 90 7200 [⟨some "AC77", some "Canada", 0, some true⟩]).1 =
        (process_and_log_data 30 7200 [⟨some "AC77", some "Canada", 0, some true⟩]).1 ∧
      (process_and_log_data 90 7200 [⟨some "AC77", some "Canada", 0, some true⟩]).2.Sublist
        (process_and_log_data 30 7200 [⟨some "AC77", some "Canada", 0, some true⟩]).2 :=
  threshold_monotonic 30 90 7200 [⟨some "AC77", some "Canada", 0, some true⟩] (by decide)

/-- C1 counterexample: with threshold 60, identifier "AC101" is on the
ground across two consecutive runs; it crosses the threshold in the first
run (dwell 61) and is placed in the alert output AGAIN in the second run
(dwell 200).  The code keeps no `alert_sent` flag, so the alert is not
emitted exactly once per streak. -/
theorem single_alert_counterexample :
    (monitorSequence 60
        [(3660, [⟨some "AC101", some "Canada", 0, some true⟩]),
          (12000, [⟨some "AC101", some "Canada", 0, some true⟩])] []).2.map
        (List.map LogEntry.flight_iata) = [["AC101"], ["AC101"]] ∧
      (monitorSequence 60
          [(3660, [⟨some "AC101", some "Canada", 0, some true⟩]),
            (12000, [⟨some "AC101", some "Canada", 0, some true⟩])] []).2.map
          (List.map LogEntry.minutes_on_ground) = [[61], [200]] := by
  decide

/-- C1 (amended): there is no per-identifier alert flag; a grounded
observation is placed in the alert output on EVERY run in which its dwell
strictly exceeds the threshold, independent of any earlier run. -/
theorem alert_every_run_over_threshold (threshold now : Int)
    (svs : List StateVector) (s : StateVector) (hmem : s ∈ svs)
    (hg : s.on_ground = some true)
    (hover : threshold < minutesOnGround now s.last_contact) :
    mkLogEntry now s ∈ (process_and_log_data threshold now svs).2 := by
  rw [process_and_log_data_snd, List.mem_filter]
  refine ⟨?_, ?_⟩
  · rw [process_and_log_data_fst]
    exact List.mem_map_of_mem _ (List.mem_filter.2 ⟨hmem, by simp [isGrounded, hg]⟩)
  · simpa [mkLogEntry] using hover

/-- C1 witness: a concrete over-threshold observation is flagged. -/
theorem alert_every_run_over_threshold_witness :
    mkLogEntry 12000 ⟨some "AC102", some "Canada", 0, some true⟩ ∈
      (process_and_log_data 60 12000 [⟨some "AC102", some "Canada", 0, some true⟩]).2 :=
  alert_every_run_over_threshold 60 12000
    [⟨some "AC102", some "Canada", 0, some true⟩]
    ⟨some "AC102", some "Canada", 0, some true⟩
    (by decide) rfl (by decide)

/-- C2 counterexample: at `now = 0`, a grounded observation whose feed
last-contact timestamp is 120 seconds in the future is logged with dwell
-2 minutes: dwell is derived from the feed's last-contact timestamp and
can be negative. -/
theorem dwell_counterexample :
    (process_and_log_data 60 0 [⟨some "AC202", some "Canada", 120, some true⟩]).1.map
        LogEntry.minutes_on_ground = [-2] := by
  decide

/-- C2 (amended): every record in the loggable output takes its dwell from
the feed's last-contact timestamp of its observation (truncation toward
zero of (now − last_contact)/60).  No stored first-seen instant exists, and
the value can be negative: truncation toward zero yields a negative dwell
exactly when last_contact exceeds now by 60 seconds or more. -/
theorem dwell_from_last_contact (threshold now : Int) (svs : List StateVector)
    (e : LogEntry) (he : e ∈ (process_and_log_data threshold now svs).1) :
    ∃ s ∈ svs, s.on_ground = some true ∧
      e.last_contact_time_utc = s.last_contact ∧
      e.minutes_on_ground = Int.tdiv (now - s.last_contact) 60 := by
  rw [process_and_log_data_fst] at he
  obtain ⟨s, hs, rfl⟩ := List.mem_map.1 he
  obtain ⟨hmem, hg⟩ := List.mem_filter.1 hs
  exact ⟨s, hmem, by simpa [isGrounded] using hg, rfl, rfl⟩

/-- C2 witness: the dwell of a concrete logged record is (now −
last_contact)/60, truncated. -/
theorem dwell_from_last_contact_witness :
    ∃ s ∈ [(⟨some "AC203", some "Canada", 120, some true⟩ : StateVector)],
      s.on_ground = some true ∧
      (mkLogEntry 0 ⟨some "AC203", some "Canada", 120, some true⟩).last_contact_time_utc =
        s.last_contact ∧
      (mkLogEntry 0 ⟨some "AC203", some "Canada", 120, some true⟩).minutes_on_ground =
        Int.tdiv (0 - s.last_contact) 60 :=
  dwell_from_last_contact 60 0 [⟨some "AC203", some "Canada", 120, some true⟩]
    (mkLogEntry 0 ⟨some "AC203", some "Canada", 120, some true⟩) (by decide)

/-- C3 counterexample: an identifier seen for the first time (there is no
prior memory of any kind) with last_contact 7200 seconds in the past is
logged with dwell 120, not 0, and is immediately placed in the alert output
although the threshold 60 is positive. -/
theorem first_detection_counterexample :
    (process_and_log_data 60 7200 [⟨some "AC303", some "Canada", 0, some true⟩]).1.map
        LogEntry.minutes_on_ground = [120] ∧
      (process_and_log_data 60 7200 [⟨some "AC303", some "Canada", 0, some true⟩]).2 ≠ [] := by
  decide

/-- C3 (amended): a first (indeed any) grounded detection is logged with
dwell trunc((now − last_contact)/60), which need not be 0, and it is placed
in the alert output in that same run exactly when this dwell strictly
exceeds the threshold. -/
theorem first_detection_dwell (threshold now : Int) (s : StateVector)
    (hg : s.on_ground = some true) :
    process_and_log_data threshold now [s] =
      ([mkLogEntry now s],
        if threshold < minutesOnGround now s.last_contact then [mkLogEntry now s]
        else []) := by
  simp [process_and_log_data, processVectors, hg, mkLogEntry]

/-- C3 witness: concrete first detection with dwell 120 over threshold 60. -/
theorem first_detection_dwell_witness :
    process_and_log_data 60 7200 [⟨some "AC304", some "Canada", 0, some true⟩] =
      ([mkLogEntry 7200 ⟨some "AC304", some "Canada", 0, some true⟩],
        [mkLogEntry 7200 ⟨some "AC304", some "Canada", 0, some true⟩]) := by
  rw [first_detection_dwell 60 7200 ⟨some "AC304", some "Canada", 0, some true⟩ rfl]
  decide

/-- C4 counterexample: identifier "AC404" is grounded in run 1 (dwell 61,
alerted), absent in run 2, and reappears in run 3 with dwell 200 — not the
dwell 0 the claim requires for a fresh entry — and is alerted again at that
dwell without any threshold re-crossing from below. -/
theorem eviction_counterexample :
    (monitorSequence 60 [(3660, [⟨some "AC404", some "Canada", 0, some true⟩]),
          (7200, ([] : List StateVector)),
          (12000, [⟨some "AC404", some "Canada", 0, some true⟩])] []).1.map
        LogEntry.minutes_on_ground = [61, 200] ∧
      (monitorSequence 60 [(3660, [⟨some "AC404", some "Canada", 0, some true⟩]),
            (7200, ([] : List StateVector)),
            (12000, [⟨some "AC404", some "Canada", 0, some true⟩])] []).2.map
          (List.map LogEntry.minutes_on_ground) = [[61], [], [200]] := by
  decide

/-- C4 (amended): the code maintains no tracking state between runs; the
alert output of each run in a sequence of runs is a function of that run's
snapshot and time alone (the CSV log, the only persisted artifact, is
append-only and never read), so eviction, re-appearance and re-alerting
semantics reduce to each run being processed from scratch. -/
theorem alerts_history_independent (threshold : Int)
    (runs : List (Int × List StateVector)) (csvFile : List LogEntry) :
    (monitorSequence threshold runs csvFile).2 =
      runs.map fun r => (process_and_log_data threshold r.1 r.2).2 := by
  induction runs generalizing csvFile with
  | nil => rfl
  | cons r rest ih =>
    obtain ⟨now, svs⟩ := r
    simp only [monitorSequence, List.map_cons]
    rw [monitorRun_snd, ih]

/-- C5 counterexample: a grounded observation whose callsign is the empty
string is NOT skipped: it contributes a record to the loggable output,
logged under the identifier "N/A". -/
theorem skip_malformed_counterexample :
    (process_and_log_data 60 0 [⟨some "", some "Canada", 0, some true⟩]).1.map
        LogEntry.flight_iata = ["N/A"] ∧
      (process_and_log_data 60 0 [⟨some "", some "Canada", 0, some true⟩]).1 ≠ [] := by
  decide

/-- C5 (amended): a grounded observation with a missing or empty identifier
is still logged; its record carries the placeholder identifier "N/A". -/
theorem malformed_logged_as_na (threshold now : Int) (svs : List StateVector)
    (s : StateVector) (hmem : s ∈ svs) (hg : s.on_ground = some true)
    (hcs : s.callsign = none ∨ s.callsign = some "") :
    mkLogEntry now s ∈ (process_and_log_data threshold now svs).1 ∧
      (mkLogEntry now s).flight_iata = "N/A" := by
  constructor
  · rw [process_and_log_data_fst]
    exact List.mem_map_of_mem _ (List.mem_filter.2 ⟨hmem, by simp [isGrounded, hg]⟩)
  · rcases hcs with h | h <;> simp [mkLogEntry, callsignOf, h]

/-- C5 witness: a concrete empty-callsign grounded observation is logged as
"N/A". -/
theorem malformed_logged_as_na_witness :
    mkLogEntry 0 ⟨some "", some "Canada", 30, some true⟩ ∈
      (process_and_log_data 60 0 [⟨some "", some "Canada", 30, some true⟩]).1 ∧
      (mkLogEntry 0 ⟨some "", some "Canada", 30, some true⟩).flight_iata = "N/A" :=
  malformed_logged_as_na 60 0 [⟨some "", some "Canada", 30, some true⟩]
    ⟨some "", some "Canada", 30, some true⟩ (by decide) rfl (Or.inr rfl)
